import Mathlib

/-
Verification of the distributed rate-limit decision engine of
ngx_ratelimit_redis: a shallow embedding of src/redis_client.rs,
src/config.rs and src/lib.rs, followed by theorems about the embedded
definitions.

Modelling conventions:
- Lua numbers (f64) are modelled by the rationals.
- The Redis store is modelled per key namespace: a plain counter map
  (INCR / GET keys of the fixed and sliding window scripts), a hash map
  for the token-bucket entries, a hash map for the leaky-bucket entries,
  and a TTL map (EXPIRE).
- Each Lua script becomes a pure function from store to store plus the
  integer the script returns; the Rust wrapper turns that integer into
  the boolean decision exactly as the source does (val == 1).
- Rust str::to_lowercase is a standard library external: from_str_with
  takes the lowercasing function as a parameter, and the executable
  from_str instantiates it with a char-wise ASCII lowercasing.
- Machine integers are modelled by Nat; the one place where u64
  subtraction can wrap (the previous-window computation) uses the
  explicit mod 2^64 formula.
-/

namespace NgxRatelimitRedis

/-! Data model from src/redis_client.rs -/

/-- The four rate limit algorithm variants (redis_client.rs, RateLimitAlgorithm). -/
inductive RateLimitAlgorithm
  | FixedWindow
  | SlidingWindow
  | TokenBucket
  | LeakyBucket
deriving DecidableEq, Repr

/-- Canonical display form of an algorithm (the Display impl in redis_client.rs). -/
def RateLimitAlgorithm.toStr : RateLimitAlgorithm → String
  | RateLimitAlgorithm.FixedWindow => "fixed_window"
  | RateLimitAlgorithm.SlidingWindow => "sliding_window"
  | RateLimitAlgorithm.TokenBucket => "token_bucket"
  | RateLimitAlgorithm.LeakyBucket => "leaky_bucket"

/-- RateLimitAlgorithm::from_str (redis_client.rs lines 37-45): lowercase the
input, then match it against the four canonical names. The call
s.to_lowercase() of the Rust standard library (full Unicode lowercasing) is
an external collaborator and is passed in as the function to_lowercase. -/
def RateLimitAlgorithm.from_str_with (to_lowercase : String → String) (s : String) : Except String RateLimitAlgorithm :=
  let t := to_lowercase s
  if t = "fixed_window" then Except.ok RateLimitAlgorithm.FixedWindow
  else if t = "sliding_window" then Except.ok RateLimitAlgorithm.SlidingWindow
  else if t = "token_bucket" then Except.ok RateLimitAlgorithm.TokenBucket
  else if t = "leaky_bucket" then Except.ok RateLimitAlgorithm.LeakyBucket
  else Except.error ("Unknown rate limit algorithm: " ++ s)

/-- Char-wise ASCII lowercasing: the executable stand-in for the library
to_lowercase, agreeing with it on ASCII input (Unicode mappings such as the
Kelvin sign to k are not reproduced; theorems about from_str_with therefore
quantify over the lowercasing function instead of relying on this one). -/
def ascii_to_lower (s : String) : String := String.mk (s.data.map Char.toLower)

/-- The executable from_str instance used by the rest of the module model:
from_str_with applied to the ASCII lowercasing. -/
def RateLimitAlgorithm.from_str (s : String) : Except String RateLimitAlgorithm :=
  RateLimitAlgorithm.from_str_with ascii_to_lower s

/-- Default value functions of redis_client.rs (lines 110-132). -/
def default_connect_timeout : Nat := 5000

/-- Default command timeout in milliseconds. -/
def default_command_timeout : Nat := 2000

/-- Default connect retry count. -/
def default_retry_count : Nat := 3

/-- Default retry delay in milliseconds. -/
def default_retry_delay : Nat := 500

/-- Default Redis database number. -/
def default_database : Int := 0

/-- Default connection pool size. -/
def default_pool_size : Nat := 10

/-- RedisConnectionOptions (redis_client.rs lines 49-90). -/
structure RedisConnectionOptions where
  connect_timeout : Nat
  command_timeout : Nat
  retry_count : Nat
  retry_delay : Nat
  password : Option String
  database : Int
  pool_size : Nat
  cluster_mode : Bool
  tls_enabled : Bool
  keepalive : Nat
deriving DecidableEq, Repr

/-- The Default impl for RedisConnectionOptions (redis_client.rs lines 92-107). -/
def RedisConnectionOptions.default : RedisConnectionOptions :=
  { connect_timeout := default_connect_timeout
    command_timeout := default_command_timeout
    retry_count := default_retry_count
    retry_delay := default_retry_delay
    password := none
    database := default_database
    pool_size := default_pool_size
    cluster_mode := false
    tls_enabled := false
    keepalive := 0 }

/-- RateLimitConfig (redis_client.rs lines 134-142): the distilled settings a
RedisRateLimiter is constructed from. -/
structure RateLimitConfig where
  redis_url : String
  requests_per_second : Nat
  burst : Nat
  algorithm : RateLimitAlgorithm
  window_size : Nat
  redis_options : RedisConnectionOptions
deriving DecidableEq, Repr

/-! The Redis store model. -/

/-- Token bucket hash entry: fields tokens and last_refill of the
ratelimit:token:<id> hash. -/
structure TokenBucketEntry where
  tokens : ℚ
  last_refill : ℚ
deriving DecidableEq, Repr

/-- Leaky bucket hash entry: fields level and last_leak of the
ratelimit:leaky:<id> hash. -/
structure LeakyBucketEntry where
  level : ℚ
  last_leak : ℚ
deriving DecidableEq, Repr

/-- The shared store: one map per key namespace plus the TTL map. A missing
key maps to none. -/
structure Store where
  counters : String → Option Nat
  token_buckets : String → Option TokenBucketEntry
  leaky_buckets : String → Option LeakyBucketEntry
  ttls : String → Option Nat

/-- The store with no keys at all. -/
def fresh_store : Store :=
  { counters := fun _ => none
    token_buckets := fun _ => none
    leaky_buckets := fun _ => none
    ttls := fun _ => none }

/-! The four algorithm scripts (redis_client.rs lines 317-712). Each script
function returns the new store and the integer the Lua script returns; the
check wrapper compares that integer with 1, as the Rust code does. -/

/-- Key of the fixed window counter: ratelimit:fixed:<id>:<window_start> with
window_start = now / window_size * window_size (redis_client.rs lines 336-338). -/
def fixed_window_key (key : String) (now window_size : Nat) : String :=
  "ratelimit:fixed:" ++ key ++ ":" ++ toString (now / window_size * window_size)

/-- The fixed window Lua script (redis_client.rs lines 341-360): INCR the
window counter, set TTL = window_size on first increment, return 1 iff the
counter is at most max_requests. -/
def fixed_window_script (max_requests window_size : Nat) (redis_key : String) (store : Store) : Store × Int :=
  let count := (store.counters redis_key).getD 0 + 1
  let new_counters := fun s => if s = redis_key then some count else store.counters s
  let new_ttls := if count = 1 then (fun s => if s = redis_key then some window_size else store.ttls s) else store.ttls
  let store1 := { store with counters := new_counters, ttls := new_ttls }
  (store1, if count ≤ max_requests then 1 else 0)

/-- check_fixed_window (redis_client.rs lines 317-401): build the window key,
run the script with max_requests = requests_per_second + burst, and admit iff
the script returned 1. -/
def check_fixed_window (config : RateLimitConfig) (key : String) (now : Nat) (store : Store) : Store × Bool :=
  let window_size := config.window_size
  let redis_key := fixed_window_key key now window_size
  let max_requests := config.requests_per_second + config.burst
  let r := fixed_window_script max_requests window_size redis_key store
  (r.1, r.2 == 1)

/-- Key of a sliding window counter: ratelimit:sliding:<id>:<window>
(redis_client.rs lines 426-427). -/
def sliding_window_key (key : String) (window : Nat) : String :=
  "ratelimit:sliding:" ++ key ++ ":" ++ toString window

/-- The sliding window Lua script (redis_client.rs lines 430-462): INCR the
current counter, set TTL = window_size * 2 on first increment, GET the
previous counter treating a missing key as 0, and return 1 iff
current + previous * (1 - elapsed fraction) is at most max_requests + burst. -/
def sliding_window_script (now window_size max_requests burst : Nat) (current_key previous_key : String) (store : Store) : Store × Int :=
  let current_window_start := now / window_size * window_size
  let elapsed_frac : ℚ := ((now : ℚ) - (current_window_start : ℚ)) / (window_size : ℚ)
  let current_count := (store.counters current_key).getD 0 + 1
  let new_counters := fun s => if s = current_key then some current_count else store.counters s
  let new_ttls := if current_count = 1 then (fun s => if s = current_key then some (window_size * 2) else store.ttls s) else store.ttls
  let store1 := { store with counters := new_counters, ttls := new_ttls }
  let previous_count := (store1.counters previous_key).getD 0
  let weighted_count : ℚ := (current_count : ℚ) + (previous_count : ℚ) * (1 - elapsed_frac)
  (store1, if weighted_count ≤ ((max_requests : ℚ) + (burst : ℚ)) then 1 else 0)

/-- check_sliding_window (redis_client.rs lines 404-507): compute the current
and previous window keys (the u64 subtraction current_window - window_size is
modelled with its wrap-around semantics), run the script with
max_requests = requests_per_second, and admit iff the script returned 1. -/
def check_sliding_window (config : RateLimitConfig) (key : String) (now : Nat) (store : Store) : Store × Bool :=
  let window_size := config.window_size
  let current_window := now / window_size * window_size
  let previous_window := (current_window + (2 ^ 64 - window_size % 2 ^ 64)) % 2 ^ 64
  let current_key := sliding_window_key key current_window
  let previous_key := sliding_window_key key previous_window
  let r := sliding_window_script now window_size config.requests_per_second config.burst current_key previous_key store
  (r.1, r.2 == 1)

/-- The token bucket Lua script (redis_client.rs lines 532-566): on a missing
key initialize tokens = burst and last_refill = now with TTL window_size * 2
and return 1; otherwise refill by elapsed / refill_time capped at burst,
consume one token and return 1 when at least one token is available, else
only update last_refill and return 0. -/
def token_bucket_script (now refill_time burst : ℚ) (window_size : Nat) (redis_key : String) (store : Store) : Store × Int :=
  match store.token_buckets redis_key with
  | none =>
      let store1 := { store with
        token_buckets := fun s => if s = redis_key then some { tokens := burst, last_refill := now } else store.token_buckets s
        ttls := fun s => if s = redis_key then some (window_size * 2) else store.ttls s }
      (store1, 1)
  | some entry =>
      let elapsed := now - entry.last_refill
      let new_tokens := min burst (entry.tokens + elapsed / refill_time)
      if 1 ≤ new_tokens then
        let store1 := { store with
          token_buckets := fun s => if s = redis_key then some { tokens := new_tokens - 1, last_refill := now } else store.token_buckets s }
        (store1, 1)
      else
        let store1 := { store with
          token_buckets := fun s => if s = redis_key then some { tokens := entry.tokens, last_refill := now } else store.token_buckets s }
        (store1, 0)

/-- check_token_bucket (redis_client.rs lines 510-607): key
ratelimit:token:<id>, refill_time = 1 / requests_per_second, admit iff the
script returned 1. -/
def check_token_bucket (config : RateLimitConfig) (key : String) (now : Nat) (store : Store) : Store × Bool :=
  let redis_key := "ratelimit:token:" ++ key
  let refill_time : ℚ := 1 / (config.requests_per_second : ℚ)
  let r := token_bucket_script (now : ℚ) refill_time (config.burst : ℚ) config.window_size redis_key store
  (r.1, r.2 == 1)

/-- The leaky bucket Lua script (redis_client.rs lines 633-671): on a missing
key initialize level = 1 and last_leak = now with TTL window_size * 2 and
return 1; otherwise leak rate * elapsed down to at least 0, add 1 for the new
request, store and return 1 when the new level fits in the bucket, else only
update last_leak and return 0. -/
def leaky_bucket_script (now rate bucket_size : ℚ) (window_size : Nat) (redis_key : String) (store : Store) : Store × Int :=
  match store.leaky_buckets redis_key with
  | none =>
      let store1 := { store with
        leaky_buckets := fun s => if s = redis_key then some { level := 1, last_leak := now } else store.leaky_buckets s
        ttls := fun s => if s = redis_key then some (window_size * 2) else store.ttls s }
      (store1, 1)
  | some entry =>
      let elapsed := now - entry.last_leak
      let leaked := rate * elapsed
      let new_level := max 0 (entry.level - leaked) + 1
      if new_level ≤ bucket_size then
        let store1 := { store with
          leaky_buckets := fun s => if s = redis_key then some { level := new_level, last_leak := now } else store.leaky_buckets s }
        (store1, 1)
      else
        let store1 := { store with
          leaky_buckets := fun s => if s = redis_key then some { level := entry.level, last_leak := now } else store.leaky_buckets s }
        (store1, 0)

/-- check_leaky_bucket (redis_client.rs lines 610-712): key
ratelimit:leaky:<id>, rate = requests_per_second, bucket_size = burst, now in
fractional seconds, admit iff the script returned 1. -/
def check_leaky_bucket (config : RateLimitConfig) (key : String) (now : ℚ) (store : Store) : Store × Bool :=
  let redis_key := "ratelimit:leaky:" ++ key
  let rate : ℚ := (config.requests_per_second : ℚ)
  let bucket_size : ℚ := (config.burst : ℚ)
  let r := leaky_bucket_script now rate bucket_size config.window_size redis_key store
  (r.1, r.2 == 1)

/-! Sequences of checks, used for the multi-request scenarios. -/

/-- Run check_fixed_window once per timestamp, threading the store. -/
def run_fixed_window (config : RateLimitConfig) (key : String) : List Nat → Store → Store × List Bool
  | [], store => (store, [])
  | t :: ts, store =>
      let r := check_fixed_window config key t store
      let rest := run_fixed_window config key ts r.1
      (rest.1, r.2 :: rest.2)

/-- Run check_token_bucket once per timestamp, threading the store. -/
def run_token_bucket (config : RateLimitConfig) (key : String) : List Nat → Store → Store × List Bool
  | [], store => (store, [])
  | t :: ts, store =>
      let r := check_token_bucket config key t store
      let rest := run_token_bucket config key ts r.1
      (rest.1, r.2 :: rest.2)

/-- Run check_leaky_bucket once per timestamp, threading the store. -/
def run_leaky_bucket (config : RateLimitConfig) (key : String) : List ℚ → Store → Store × List Bool
  | [], store => (store, [])
  | t :: ts, store =>
      let r := check_leaky_bucket config key t store
      let rest := run_leaky_bucket config key ts r.1
      (rest.1, r.2 :: rest.2)

/-- Number of admitted requests in a list of decisions. -/
def admitted_count (l : List Bool) : Nat := l.countP (fun b => b)

/-! Configuration model from src/config.rs. -/

/-- Default value functions of config.rs (lines 220-246). -/
def default_redis_url : String := "redis://127.0.0.1:6379"

/-- Default identity key source. -/
def default_key : String := "remote_addr"

/-- Default rate (requests per second). -/
def default_rate : Nat := 10

/-- Default burst. -/
def default_burst : Nat := 5

/-- Default algorithm name. -/
def default_algorithm : String := "sliding_window"

/-- Default window size in seconds. -/
def default_window_size : Nat := 60

/-- Default enabled flag. -/
def default_enabled : Bool := false

/-- RateLimitSettings (config.rs lines 11-44). -/
structure RateLimitSettings where
  redis_url : String
  key : String
  rate : Nat
  burst : Nat
  algorithm : String
  window_size : Nat
  enabled : Bool
  redis_options : RedisConnectionOptions
deriving DecidableEq, Repr

/-- The Default impl for RateLimitSettings (config.rs lines 46-59). -/
def RateLimitSettings.default : RateLimitSettings :=
  { redis_url := default_redis_url
    key := default_key
    rate := default_rate
    burst := default_burst
    algorithm := default_algorithm
    window_size := default_window_size
    enabled := default_enabled
    redis_options := RedisConnectionOptions.default }

/-- ConfigFile (config.rs lines 62-71); the locations HashMap is modelled as
a function from location path to an optional settings record. -/
structure ConfigFile where
  default : RateLimitSettings
  locations : String → Option RateLimitSettings

/-- merge_redis_options (config.rs lines 167-217): apply each src field onto
dest only when it differs from the universal default (the password only when
it is Some). The Rust function mutates dest field by field; each assignment
touches a distinct field, so the whole is one record. -/
def merge_redis_options (dest src : RedisConnectionOptions) : RedisConnectionOptions :=
  { connect_timeout := if src.connect_timeout ≠ RedisConnectionOptions.default.connect_timeout then src.connect_timeout else dest.connect_timeout
    command_timeout := if src.command_timeout ≠ RedisConnectionOptions.default.command_timeout then src.command_timeout else dest.command_timeout
    retry_count := if src.retry_count ≠ RedisConnectionOptions.default.retry_count then src.retry_count else dest.retry_count
    retry_delay := if src.retry_delay ≠ RedisConnectionOptions.default.retry_delay then src.retry_delay else dest.retry_delay
    password := if src.password.isSome then src.password else dest.password
    database := if src.database ≠ RedisConnectionOptions.default.database then src.database else dest.database
    pool_size := if src.pool_size ≠ RedisConnectionOptions.default.pool_size then src.pool_size else dest.pool_size
    cluster_mode := if src.cluster_mode ≠ RedisConnectionOptions.default.cluster_mode then src.cluster_mode else dest.cluster_mode
    tls_enabled := if src.tls_enabled ≠ RedisConnectionOptions.default.tls_enabled then src.tls_enabled else dest.tls_enabled
    keepalive := if src.keepalive ≠ RedisConnectionOptions.default.keepalive then src.keepalive else dest.keepalive }

/-- ConfigFile::get_settings (config.rs lines 112-158): start from a copy of
the default settings and overlay each location field that differs from the
universal default (enabled: that differs from the default settings enabled);
the redis options are merged by merge_redis_options. The Rust function
mutates merged_settings field by field; each assignment touches a distinct
field, so the whole is one record. -/
def ConfigFile.get_settings (cf : ConfigFile) (location : String) : RateLimitSettings :=
  match cf.locations location with
  | some location_settings =>
      { redis_url := if location_settings.redis_url ≠ default_redis_url then location_settings.redis_url else cf.default.redis_url
        key := if location_settings.key ≠ default_key then location_settings.key else cf.default.key
        rate := if location_settings.rate ≠ default_rate then location_settings.rate else cf.default.rate
        burst := if location_settings.burst ≠ default_burst then location_settings.burst else cf.default.burst
        algorithm := if location_settings.algorithm ≠ default_algorithm then location_settings.algorithm else cf.default.algorithm
        window_size := if location_settings.window_size ≠ default_window_size then location_settings.window_size else cf.default.window_size
        enabled := if location_settings.enabled ≠ cf.default.enabled then location_settings.enabled else cf.default.enabled
        redis_options := merge_redis_options cf.default.redis_options location_settings.redis_options }
  | none => cf.default

/-! Module model from src/lib.rs. -/

/-- RateLimitRedisConfig (lib.rs lines 17-28): the per-location module
configuration assembled from directives and the configuration file. -/
structure RateLimitRedisConfig where
  redis_url : String
  rate_limit_key : String
  requests_per_second : Nat
  burst : Nat
  enabled : Bool
  algorithm : RateLimitAlgorithm
  window_size : Nat
  config_file_path : Option String
  redis_options : RedisConnectionOptions
deriving DecidableEq, Repr

/-- The Default impl for RateLimitRedisConfig (lib.rs lines 30-44). -/
def RateLimitRedisConfig.default : RateLimitRedisConfig :=
  { redis_url := "redis://127.0.0.1:6379"
    rate_limit_key := "remote_addr"
    requests_per_second := 10
    burst := 5
    enabled := false
    algorithm := RateLimitAlgorithm.SlidingWindow
    window_size := 60
    config_file_path := none
    redis_options := RedisConnectionOptions.default }

/-- apply_settings_to_config (lib.rs lines 108-123): turn file settings into
a module configuration, parsing the algorithm name with SlidingWindow as the
fallback. -/
def apply_settings_to_config (settings : RateLimitSettings) : RateLimitRedisConfig :=
  { redis_url := settings.redis_url
    rate_limit_key := settings.key
    requests_per_second := settings.rate
    burst := settings.burst
    enabled := settings.enabled
    algorithm :=
      match RateLimitAlgorithm.from_str settings.algorithm with
      | Except.ok a => a
      | Except.error _ => RateLimitAlgorithm.SlidingWindow
    window_size := settings.window_size
    config_file_path := none
    redis_options := settings.redis_options }

/-- apply_config_from_file (lib.rs lines 102-105). -/
def apply_config_from_file (config_file : ConfigFile) (location : String) : RateLimitRedisConfig :=
  apply_settings_to_config (config_file.get_settings location)

/-- The config_file merge step of ratelimit_redis_command (lib.rs lines
350-361): the file-resolved location_config overwrites every field of the
directive-built config except enabled and config_file_path; enabled is taken
from the file only when the directive said on. -/
def apply_location_config (config : RateLimitRedisConfig) (enabled : Bool) (location_config : RateLimitRedisConfig) : RateLimitRedisConfig :=
  let c := { config with
    redis_url := location_config.redis_url
    rate_limit_key := location_config.rate_limit_key
    requests_per_second := location_config.requests_per_second
    burst := location_config.burst
    algorithm := location_config.algorithm
    window_size := location_config.window_size
    redis_options := location_config.redis_options }
  if enabled then { c with enabled := location_config.enabled } else c

/-- The effective configuration computed by ratelimit_redis_command when the
directive supplies config_file (lib.rs lines 284-370): the directive-parsed
config (with enabled set from the on/off argument, line 290) merged with the
file-resolved configuration for the location. -/
def ratelimit_redis_directive (directive_config : RateLimitRedisConfig) (enabled : Bool) (config_file : ConfigFile) (location : String) : RateLimitRedisConfig :=
  apply_location_config { directive_config with enabled := enabled } enabled (apply_config_from_file config_file location)

/-! The admission handler (lib.rs lines 412-503). -/

/-- The rejection response assembled at lib.rs lines 488-497. -/
structure RejectionResponse where
  status : Nat
  limit_header : String
  remaining_header : String
  algorithm_header : String
  content_type : String
  body : String
deriving DecidableEq, Repr

/-- HandlerStatus: Declined lets the next handler run; Done carries the
rejection response. -/
inductive HandlerStatus
  | Declined
  | Done (resp : RejectionResponse)
deriving DecidableEq, Repr

/-- The response built when a request is rejected (lib.rs lines 488-497). -/
def rejection_response (config : RateLimitRedisConfig) : RejectionResponse :=
  { status := 403
    limit_header := toString config.requests_per_second
    remaining_header := "0"
    algorithm_header := config.algorithm.toStr
    content_type := "application/json"
    body := "\x7b\"error\": \"rate limit exceeded\"\x7d" }

/-- str::trim_start_matches with the pattern http_ removes every successive
occurrence of the prefix, not only the first one. -/
def trim_http_chars : List Char → List Char
  | 'h' :: 't' :: 't' :: 'p' :: '_' :: rest => trim_http_chars rest
  | l => l

/-- The header name obtained by key.trim_start_matches("http_") (lib.rs
line 457). -/
def trim_http_matches (s : String) : String := String.mk (trim_http_chars s.data)

/-- Identity key derivation (lib.rs lines 445-468): remote_addr uses the peer
address, an http_ name uses the request header named by stripping every
leading http_ occurrence, anything else is the literal key; a missing source
yields none. -/
def derive_key (config : RateLimitRedisConfig) (remote_addr : Option String) (headers : String → Option String) : Option String :=
  if config.rate_limit_key = "remote_addr" then remote_addr
  else if config.rate_limit_key.startsWith "http_" then headers (trim_http_matches config.rate_limit_key)
  else some config.rate_limit_key

/-- ratelimit_handler (lib.rs lines 412-503) for a request whose effective
configuration is config: limiter models the rate limiter slot (none when
uninitialized); its check result Ok true, or any Err, or an uninitialized
slot admit the request (Declined); only Ok false produces the 403 response. -/
def ratelimit_handler (config : RateLimitRedisConfig) (remote_addr : Option String) (headers : String → Option String) (limiter : Option (String → Except String Bool)) : HandlerStatus :=
  if config.enabled = false then HandlerStatus.Declined
  else
    match derive_key config remote_addr headers with
    | none => HandlerStatus.Declined
    | some key =>
        let checked :=
          match limiter with
          | some check => check key
          | none => Except.ok true
        let allowed :=
          match checked with
          | Except.ok a => a
          | Except.error _ => true
        if allowed = false then HandlerStatus.Done (rejection_response config) else HandlerStatus.Declined

/-! Store client construction (redis_client.rs, RedisRateLimiter::new). -/

/-- A parsed Redis URL: the host part plus the password and database
components that RedisRateLimiter::new may rewrite. -/
structure RedisUrl where
  scheme_host : String
  password : Option String
  db : Int
deriving DecidableEq, Repr

/-- The URL construction of RedisRateLimiter::new (redis_client.rs lines
176-189): only when a password is configured is the URL reparsed and are the
password and the database override written into it; otherwise the original
URL is used as is. -/
def build_connection_url (redis_url : RedisUrl) (options : RedisConnectionOptions) : RedisUrl :=
  match options.password with
  | some pwd => { redis_url with password := some pwd, db := options.database }
  | none => redis_url

/-- Outcome of a RedisRateLimiter::new run: the result, how many connection
attempts were made, how many PING probes were issued, and how many
retry_delay sleeps happened. -/
structure NewOutcome where
  result : Except String Unit
  conn_attempts : Nat
  ping_attempts : Nat
  sleeps : Nat

/-- Result of one PING probe. -/
inductive PingResult
  | reply (s : String)
  | failed
  | timedOut
deriving DecidableEq, Repr

/-- The connect and probe sequence of RedisRateLimiter::new (redis_client.rs
lines 221-298): attempts 0..retry_count of get_async_connection, sleeping
retry_delay after every failed attempt but the last; then, on the first
connection obtained, a single PING that must answer PONG. conn i tells
whether attempt i succeeds; ping i gives the outcome of the i-th PING probe
(the code only ever issues probe 0). -/
def RedisRateLimiter.new_model (conn : Nat → Bool) (ping : Nat → PingResult) (retry_count : Nat) : NewOutcome :=
  match (List.range (retry_count + 1)).find? conn with
  | none =>
      { result := Except.error "Failed to connect to Redis"
        conn_attempts := retry_count + 1
        ping_attempts := 0
        sleeps := retry_count }
  | some i =>
      match ping 0 with
      | PingResult.reply s =>
          if s = "PONG" then
            { result := Except.ok (), conn_attempts := i + 1, ping_attempts := 1, sleeps := i }
          else
            { result := Except.error "Unexpected response from Redis server", conn_attempts := i + 1, ping_attempts := 1, sleeps := i }
      | PingResult.failed =>
          { result := Except.error "Failed to ping Redis server", conn_attempts := i + 1, ping_attempts := 1, sleeps := i }
      | PingResult.timedOut =>
          { result := Except.error "Redis PING command timed out", conn_attempts := i + 1, ping_attempts := 1, sleeps := i }

/-! Specification predicates used to state the per-call script contracts. -/

/-- Per-call contract of check_fixed_window: the window counter is
incremented, the TTL is set to window_size exactly on the first increment,
and the call admits iff the incremented counter is at most
requests_per_second + burst. -/
def fixed_window_call_contract (config : RateLimitConfig) (key : String) : Prop :=
  ∀ (now : Nat) (store : Store),
    (check_fixed_window config key now store).1.counters (fixed_window_key key now config.window_size)
        = some ((store.counters (fixed_window_key key now config.window_size)).getD 0 + 1) ∧
    (check_fixed_window config key now store).1.ttls (fixed_window_key key now config.window_size)
        = (if (store.counters (fixed_window_key key now config.window_size)).getD 0 + 1 = 1
           then some config.window_size
           else store.ttls (fixed_window_key key now config.window_size)) ∧
    ((check_fixed_window config key now store).2 = true ↔
      (store.counters (fixed_window_key key now config.window_size)).getD 0 + 1
        ≤ config.requests_per_second + config.burst)

/-- Window cap contract of check_fixed_window: starting from a fresh store,
any sequence of calls whose timestamps all fall into the same aligned window
admits at most requests_per_second + burst requests. -/
def fixed_window_cap_contract (config : RateLimitConfig) (key : String) : Prop :=
  ∀ (w0 : Nat) (times : List Nat),
    (∀ t ∈ times, t / config.window_size = w0) →
    admitted_count (run_fixed_window config key times fresh_store).2
      ≤ config.requests_per_second + config.burst

/-- Per-call contract of check_sliding_window: the current window counter is
incremented, its TTL is set to window_size * 2 exactly on the first
increment, and the call admits iff the weighted count
current + previous * (1 - elapsed fraction) is at most
requests_per_second + burst, the previous counter being read (from the store
the script sees after the INCR) with a missing key counted as 0. -/
def sliding_window_call_contract (config : RateLimitConfig) (key : String) (now : Nat) (store : Store) : Prop :=
  (check_sliding_window config key now store).1.counters (sliding_window_key key (now / config.window_size * config.window_size))
      = some ((store.counters (sliding_window_key key (now / config.window_size * config.window_size))).getD 0 + 1) ∧
  (check_sliding_window config key now store).1.ttls (sliding_window_key key (now / config.window_size * config.window_size))
      = (if (store.counters (sliding_window_key key (now / config.window_size * config.window_size))).getD 0 + 1 = 1
         then some (config.window_size * 2)
         else store.ttls (sliding_window_key key (now / config.window_size * config.window_size))) ∧
  ((check_sliding_window config key now store).2 = true ↔
    (((store.counters (sliding_window_key key (now / config.window_size * config.window_size))).getD 0 + 1 : ℚ)
      + (((check_sliding_window config key now store).1.counters
            (sliding_window_key key ((now / config.window_size * config.window_size
              + (2 ^ 64 - config.window_size % 2 ^ 64)) % 2 ^ 64))).getD 0 : ℚ)
        * (1 - ((now : ℚ) - ((now / config.window_size * config.window_size : Nat) : ℚ)) / (config.window_size : ℚ))
      ≤ (config.requests_per_second : ℚ) + (config.burst : ℚ)))

/-- Level bounds for every leaky bucket entry of a store. -/
def leaky_level_inv (burst : Nat) (store : Store) : Prop :=
  ∀ (s : String) (entry : LeakyBucketEntry),
    store.leaky_buckets s = some entry → 0 ≤ entry.level ∧ entry.level ≤ (burst : ℚ)

/-! Concrete fixtures used by the scenario theorems, counterexamples and
witnesses. -/

/-- Token bucket scenario settings: rate 1, burst 5 (spec scenario 3). -/
def token_scenario_config : RateLimitConfig :=
  { redis_url := "redis://127.0.0.1:6379"
    requests_per_second := 1
    burst := 5
    algorithm := RateLimitAlgorithm.TokenBucket
    window_size := 60
    redis_options := RedisConnectionOptions.default }

/-- Fixed window scenario settings: rate 2, burst 0, window 10 (spec scenario 1). -/
def fixed_scenario_config : RateLimitConfig :=
  { redis_url := "redis://127.0.0.1:6379"
    requests_per_second := 2
    burst := 0
    algorithm := RateLimitAlgorithm.FixedWindow
    window_size := 10
    redis_options := RedisConnectionOptions.default }

/-- Sliding window scenario settings: the default rate 10, burst 5, window 60. -/
def sliding_scenario_config : RateLimitConfig :=
  { redis_url := "redis://127.0.0.1:6379"
    requests_per_second := 10
    burst := 5
    algorithm := RateLimitAlgorithm.SlidingWindow
    window_size := 60
    redis_options := RedisConnectionOptions.default }

/-- Leaky bucket settings with burst 2 (a bucket that can hold a request). -/
def leaky_scenario_config : RateLimitConfig :=
  { redis_url := "redis://127.0.0.1:6379"
    requests_per_second := 2
    burst := 2
    algorithm := RateLimitAlgorithm.LeakyBucket
    window_size := 60
    redis_options := RedisConnectionOptions.default }

/-- Leaky bucket settings with burst 0: the degenerate bucket. -/
def leaky_zero_burst_config : RateLimitConfig :=
  { redis_url := "redis://127.0.0.1:6379"
    requests_per_second := 1
    burst := 0
    algorithm := RateLimitAlgorithm.LeakyBucket
    window_size := 60
    redis_options := RedisConnectionOptions.default }

/-- A connection environment where every attempt succeeds. -/
def conn_always : Nat → Bool := fun _ => true

/-- A PING environment whose first probe fails and whose second would answer
PONG. -/
def ping_fail_then_pong : Nat → PingResult :=
  fun n => if n = 0 then PingResult.failed else PingResult.reply "PONG"

/-- A URL carrying no password and database 0. -/
def url_no_password : RedisUrl :=
  { scheme_host := "redis://127.0.0.1:6379", password := none, db := 0 }

/-- Connection options that override only the database, with no password. -/
def options_database_only : RedisConnectionOptions :=
  { RedisConnectionOptions.default with database := 5 }

/-- Connection options with both a password and a database override. -/
def options_with_password : RedisConnectionOptions :=
  { RedisConnectionOptions.default with password := some "secret", database := 5 }

/-- A directive-built module configuration with non-default fields. -/
def directive_config_c2 : RateLimitRedisConfig :=
  { RateLimitRedisConfig.default with
    redis_url := "redis://10.0.0.1:6379"
    requests_per_second := 99
    burst := 7 }

/-- A configuration file with only the default settings. -/
def config_file_plain : ConfigFile :=
  { default := RateLimitSettings.default, locations := fun _ => none }

/-- A configuration file whose location override equals its default. -/
def config_file_self_override : ConfigFile :=
  { default := RateLimitSettings.default
    locations := fun l => if l = "/api" then some RateLimitSettings.default else none }

/-! Helper lemmas. -/

/-- The per-call contract of check_fixed_window holds for every
configuration: counter increment, TTL on first increment, admit iff the
incremented counter is within requests_per_second + burst. -/
theorem fixed_window_call_contract_holds (config : RateLimitConfig) (key : String) :
    fixed_window_call_contract config key := by
  intro now store
  refine ⟨?_, ?_, ?_⟩
  · simp [check_fixed_window, fixed_window_script]
  · simp only [check_fixed_window, fixed_window_script]
    by_cases hc : (store.counters (fixed_window_key key now config.window_size)).getD 0 + 1 = 1 <;>
      simp [hc]
  · simp only [check_fixed_window, fixed_window_script]
    split <;> simp_all

/-- Timestamps of the same aligned window produce the same fixed window key. -/
theorem fixed_window_key_of_window (key : String) (W t w0 : Nat) (ht : t / W = w0) :
    fixed_window_key key t W = "ratelimit:fixed:" ++ key ++ ":" ++ toString (w0 * W) := by
  unfold fixed_window_key
  rw [ht]

/-- Over any run whose timestamps stay in one aligned window, the number of
admissions is bounded by what is left of the budget
requests_per_second + burst given the counter already stored. -/
theorem run_fixed_window_admitted_bound (config : RateLimitConfig) (key : String) (w0 : Nat) :
    ∀ (times : List Nat) (store : Store),
      (∀ t ∈ times, t / config.window_size = w0) →
      admitted_count (run_fixed_window config key times store).2 ≤
        (config.requests_per_second + config.burst) -
          (store.counters ("ratelimit:fixed:" ++ key ++ ":" ++ toString (w0 * config.window_size))).getD 0 := by
  intro times
  induction times with
  | nil =>
    intro store h
    simp [run_fixed_window, admitted_count]
  | cons t ts ih =>
    intro store h
    have ht : t / config.window_size = w0 := h t (List.mem_cons_self t ts)
    have hts : ∀ x ∈ ts, x / config.window_size = w0 := fun x hx => h x (List.mem_cons_of_mem t hx)
    have hkey : fixed_window_key key t config.window_size =
        "ratelimit:fixed:" ++ key ++ ":" ++ toString (w0 * config.window_size) :=
      fixed_window_key_of_window key config.window_size t w0 ht
    have ihx := ih (check_fixed_window config key t store).1 hts
    have hstep : (check_fixed_window config key t store).1.counters
        ("ratelimit:fixed:" ++ key ++ ":" ++ toString (w0 * config.window_size)) =
        some ((store.counters ("ratelimit:fixed:" ++ key ++ ":" ++ toString (w0 * config.window_size))).getD 0 + 1) := by
      simp [check_fixed_window, fixed_window_script, hkey]
    rw [hstep] at ihx
    simp only [Option.getD_some, admitted_count] at ihx
    have hres : ((check_fixed_window config key t store).2 = true) ↔
        (store.counters ("ratelimit:fixed:" ++ key ++ ":" ++ toString (w0 * config.window_size))).getD 0 + 1
          ≤ config.requests_per_second + config.burst := by
      simp only [check_fixed_window, fixed_window_script, hkey]
      split <;> simp_all
    simp only [run_fixed_window, admitted_count, List.countP_cons]
    cases hadm : (check_fixed_window config key t store).2 with
    | true =>
      have hle := hres.mp hadm
      simp [hadm]
      omega
    | false =>
      simp [hadm]
      omega

/-- One leaky bucket script call preserves the level bounds, provided the
bucket can hold at least one request. -/
theorem leaky_step_preserves_inv (config : RateLimitConfig) (key : String) (now : ℚ) (store : Store)
    (hb : 1 ≤ config.burst) (h : leaky_level_inv config.burst store) :
    leaky_level_inv config.burst (check_leaky_bucket config key now store).1 := by
  intro s entry hse
  simp only [check_leaky_bucket, leaky_bucket_script] at hse
  split at hse
  · dsimp only at hse
    by_cases hs : s = "ratelimit:leaky:" ++ key
    · rw [if_pos hs] at hse
      simp only [Option.some.injEq] at hse
      subst hse
      dsimp only
      constructor
      · norm_num
      · exact_mod_cast Nat.one_le_cast.mpr hb
    · rw [if_neg hs] at hse
      exact h s entry hse
  · rename_i e0 hmatch
    split at hse
    · rename_i hcond
      dsimp only at hse
      by_cases hs : s = "ratelimit:leaky:" ++ key
      · rw [if_pos hs] at hse
        simp only [Option.some.injEq] at hse
        subst hse
        dsimp only
        constructor
        · have hmax : (0 : ℚ) ≤ max 0 (e0.level - (config.requests_per_second : ℚ) * (now - e0.last_leak)) :=
            le_max_left _ _
          linarith
        · exact hcond
      · rw [if_neg hs] at hse
        exact h s entry hse
    · rename_i hcond
      dsimp only at hse
      by_cases hs : s = "ratelimit:leaky:" ++ key
      · rw [if_pos hs] at hse
        simp only [Option.some.injEq] at hse
        subst hse
        dsimp only
        exact h ("ratelimit:leaky:" ++ key) e0 hmatch
      · rw [if_neg hs] at hse
        exact h s entry hse

/-- A whole run of leaky bucket script calls preserves the level bounds. -/
theorem run_leaky_preserves_inv (config : RateLimitConfig) (key : String) (hb : 1 ≤ config.burst) :
    ∀ (times : List ℚ) (store : Store),
      leaky_level_inv config.burst store →
      leaky_level_inv config.burst (run_leaky_bucket config key times store).1 := by
  intro times
  induction times with
  | nil => intro store h; simpa [run_leaky_bucket] using h
  | cons t ts ih =>
    intro store h
    simp only [run_leaky_bucket]
    exact ih (check_leaky_bucket config key t store).1 (leaky_step_preserves_inv config key t store hb h)

/-- Merging a redis option record with itself changes nothing. -/
theorem merge_redis_options_self (o : RedisConnectionOptions) : merge_redis_options o o = o := by
  simp [merge_redis_options]

/-! Claim theorems. -/

/-- C1 counterexample: with algorithm token_bucket, rate 1 and burst 5,
six consecutive check calls at timestamp 0 from a fresh store are all
admitted; the sixth is not rejected, because the initializing first call
stores a full bucket of burst tokens without consuming one. -/
theorem token_bucket_sixth_request_admitted :
    (run_token_bucket token_scenario_config "1.2.3.4" [0, 0, 0, 0, 0, 0] fresh_store).2
      = [true, true, true, true, true, true] := by
  norm_num [run_token_bucket, check_token_bucket, token_bucket_script, fresh_store,
    token_scenario_config]

/-- C1 (amended): with algorithm token_bucket, rate 1 and burst 5, starting
from a store containing no key for the identity, seven consecutive check
calls issued at the same timestamp return admit for the first six and reject
for the seventh: the initial call stores a bucket of exactly burst tokens
and admits without consuming one, so burst + 1 requests pass before the
first rejection. -/
theorem token_bucket_burst_run :
    (run_token_bucket token_scenario_config "1.2.3.4" [0, 0, 0, 0, 0, 0, 0] fresh_store).2
      = [true, true, true, true, true, true, false] := by
  norm_num [run_token_bucket, check_token_bucket, token_bucket_script, fresh_store,
    token_scenario_config]

/-- C2 counterexample: a directive that supplies rate 99 together with
config_file, against a file whose resolved settings carry the default rate
10 and enabled false, ends with rate 10 and enabled false: neither the
directive-supplied rate nor the directive-supplied enabled (on) wins. -/
theorem directive_overrides_lost :
    directive_config_c2.requests_per_second = 99 ∧
    (ratelimit_redis_directive directive_config_c2 true config_file_plain "/loc").requests_per_second = 10 ∧
    (ratelimit_redis_directive directive_config_c2 true config_file_plain "/loc").enabled = false :=
  ⟨rfl, rfl, rfl⟩

/-- C2 (amended): when a ratelimit_redis directive also supplies
config_file, the file-resolved value wins over the directive-supplied value
for redis_url, key, rate, burst, algorithm, window_size and every redis
connection option; enabled is the file-resolved value when the directive
said on, and false when the directive said off; only config_file_path keeps
the directive value. -/
theorem directive_config_file_precedence (dc : RateLimitRedisConfig) (enabled : Bool)
    (cf : ConfigFile) (location : String) :
    (ratelimit_redis_directive dc enabled cf location).redis_url = (apply_config_from_file cf location).redis_url ∧
    (ratelimit_redis_directive dc enabled cf location).rate_limit_key = (apply_config_from_file cf location).rate_limit_key ∧
    (ratelimit_redis_directive dc enabled cf location).requests_per_second = (apply_config_from_file cf location).requests_per_second ∧
    (ratelimit_redis_directive dc enabled cf location).burst = (apply_config_from_file cf location).burst ∧
    (ratelimit_redis_directive dc enabled cf location).algorithm = (apply_config_from_file cf location).algorithm ∧
    (ratelimit_redis_directive dc enabled cf location).window_size = (apply_config_from_file cf location).window_size ∧
    (ratelimit_redis_directive dc enabled cf location).redis_options = (apply_config_from_file cf location).redis_options ∧
    (ratelimit_redis_directive dc enabled cf location).enabled = (if enabled then (apply_config_from_file cf location).enabled else false) ∧
    (ratelimit_redis_directive dc enabled cf location).config_file_path = dc.config_file_path := by
  cases enabled <;> simp [ratelimit_redis_directive, apply_location_config]

/-- C3: for every request at an enabled location, the handler produces the
403 rejection response exactly when the rate limiter slot is occupied and
its check returns Ok false; in every other situation, in particular when the
check returns an error or the slot is uninitialized, the handler returns
Declined and the request is admitted. -/
theorem ratelimit_handler_fail_open (config : RateLimitRedisConfig) (remote_addr : Option String)
    (headers : String → Option String) (limiter : Option (String → Except String Bool)) :
    (ratelimit_handler config remote_addr headers limiter = HandlerStatus.Done (rejection_response config) ↔
      (config.enabled = true ∧ ∃ key, derive_key config remote_addr headers = some key ∧
        ∃ check, limiter = some check ∧ check key = Except.ok false)) ∧
    (ratelimit_handler config remote_addr headers limiter = HandlerStatus.Declined ∨
     ratelimit_handler config remote_addr headers limiter = HandlerStatus.Done (rejection_response config)) := by
  cases henabled : config.enabled with
  | false => simp [ratelimit_handler, henabled]
  | true =>
    cases hk : derive_key config remote_addr headers with
    | none => simp [ratelimit_handler, henabled, hk]
    | some k =>
      cases limiter with
      | none => simp [ratelimit_handler, henabled, hk]
      | some f =>
        cases hc : f k with
        | ok b =>
          cases b with
          | false => simp [ratelimit_handler, henabled, hk, hc]
          | true => simp [ratelimit_handler, henabled, hk, hc]
        | error e => simp [ratelimit_handler, henabled, hk, hc]

/-- C4: for every check under algorithm fixed_window, the counter at the
window key is incremented, its TTL is set to window_size exactly when the
incremented value equals 1, the call admits iff the incremented counter is
at most requests_per_second + burst, and any sequence of calls from a fresh
store whose timestamps stay in one aligned window admits at most
requests_per_second + burst requests. -/
theorem check_fixed_window_spec (config : RateLimitConfig) (key : String)
    (hw : 0 < config.window_size) :
    fixed_window_call_contract config key ∧ fixed_window_cap_contract config key := by
  refine ⟨fixed_window_call_contract_holds config key, ?_⟩
  intro w0 times hsame
  have hb := run_fixed_window_admitted_bound config key w0 times fresh_store hsame
  have h0 : (fresh_store.counters
      ("ratelimit:fixed:" ++ key ++ ":" ++ toString (w0 * config.window_size))).getD 0 = 0 := rfl
  rw [h0, Nat.sub_zero] at hb
  exact hb

/-- C4 witness: the fixed window scenario configuration (rate 2, burst 0,
window 10) has a positive window size, and three calls at timestamps 0, 1, 2
admit at most 2 requests. -/
theorem check_fixed_window_spec_witness :
    0 < fixed_scenario_config.window_size ∧
    admitted_count (run_fixed_window fixed_scenario_config "1.2.3.4" [0, 1, 2] fresh_store).2
      ≤ fixed_scenario_config.requests_per_second + fixed_scenario_config.burst :=
  ⟨by decide, (check_fixed_window_spec fixed_scenario_config "1.2.3.4" (by decide)).2 0 [0, 1, 2] (by decide)⟩

/-- C5: for every check under algorithm sliding_window, the current window
counter is incremented, its TTL is set to window_size * 2 exactly on the
first increment, and the call admits iff the weighted count
current + previous * (1 - elapsed fraction) is at most
requests_per_second + burst, the previous window counter being read with a
missing key treated as 0. -/
theorem check_sliding_window_spec (config : RateLimitConfig) (key : String) (now : Nat)
    (store : Store) (hw : 0 < config.window_size) :
    sliding_window_call_contract config key now store := by
  refine ⟨?_, ?_, ?_⟩
  · simp [check_sliding_window, sliding_window_script]
  · simp only [check_sliding_window, sliding_window_script]
    by_cases hc : (store.counters (sliding_window_key key (now / config.window_size * config.window_size))).getD 0 + 1 = 1 <;>
      simp [hc]
  · simp only [check_sliding_window, sliding_window_script]
    split <;> simp_all

/-- C5 witness: the sliding window scenario configuration has a positive
window size and satisfies the per-call contract at timestamp 30 on a fresh
store. -/
theorem check_sliding_window_spec_witness :
    0 < sliding_scenario_config.window_size ∧
    sliding_window_call_contract sliding_scenario_config "1.2.3.4" 30 fresh_store :=
  ⟨by decide, check_sliding_window_spec sliding_scenario_config "1.2.3.4" 30 fresh_store (by decide)⟩

/-- C6 counterexample: with every connection attempt succeeding, a first
PING that fails and a second PING that would answer PONG, construction with
retry_count 3 still fails after exactly one PING probe: a PING failure on an
established connection does not trigger the retry loop. -/
theorem new_model_ping_failure_not_retried :
    ping_fail_then_pong 1 = PingResult.reply "PONG" ∧
    (RedisRateLimiter.new_model conn_always ping_fail_then_pong 3).ping_attempts = 1 ∧
    (RedisRateLimiter.new_model conn_always ping_fail_then_pong 3).result =
      Except.error "Failed to ping Redis server" :=
  ⟨rfl, rfl, rfl⟩

/-- C6 (amended): during RedisRateLimiter::new only the connection
establishment is retried, up to retry_count additional attempts after the
first failure with a retry_delay sleep between consecutive attempts
(sleeps + 1 = connection attempts); the PING probe is issued at most once,
and construction succeeds iff some attempt within retry_count + 1 connects
and the single PING answers PONG. Per-request script calls are not retried:
each check issues its script exactly once (the script functions of this
file). -/
theorem new_model_connect_retry_spec (conn : Nat → Bool) (ping : Nat → PingResult) (retry_count : Nat) :
    (RedisRateLimiter.new_model conn ping retry_count).ping_attempts ≤ 1 ∧
    (RedisRateLimiter.new_model conn ping retry_count).conn_attempts ≤ retry_count + 1 ∧
    (RedisRateLimiter.new_model conn ping retry_count).sleeps + 1 =
      (RedisRateLimiter.new_model conn ping retry_count).conn_attempts ∧
    ((RedisRateLimiter.new_model conn ping retry_count).result = Except.ok () ↔
      ((List.range (retry_count + 1)).any conn = true ∧ ping 0 = PingResult.reply "PONG")) := by
  cases hfind : (List.range (retry_count + 1)).find? conn with
  | none =>
    have hany : (List.range (retry_count + 1)).any conn = false := by
      rw [List.any_eq_false]
      intro x hx
      have hx2 := List.find?_eq_none.mp hfind x hx
      simpa using hx2
    simp [RedisRateLimiter.new_model, hfind, hany]
  | some i =>
    have hmem : i ∈ List.range (retry_count + 1) := List.mem_of_find?_eq_some hfind
    have hi : i < retry_count + 1 := List.mem_range.mp hmem
    have hconn : conn i = true := List.find?_some hfind
    have hany : (List.range (retry_count + 1)).any conn = true :=
      List.any_eq_true.mpr ⟨i, hmem, hconn⟩
    cases hp : ping 0 with
    | reply s =>
      by_cases hs : s = "PONG"
      · subst hs
        simp [RedisRateLimiter.new_model, hfind, hp, hany]
        omega
      · simp [RedisRateLimiter.new_model, hfind, hp, hs, hany]
        omega
    | failed =>
      simp [RedisRateLimiter.new_model, hfind, hp, hany]
      omega
    | timedOut =>
      simp [RedisRateLimiter.new_model, hfind, hp, hany]
      omega

/-- C7 counterexample: with no password configured but database 5, the URL
used to build the client is the original URL unchanged, so the database
override is not applied: password and database are not applied
independently of each other. -/
theorem build_connection_url_database_requires_password :
    options_database_only.database = 5 ∧ url_no_password.db = 0 ∧
    build_connection_url url_no_password options_database_only = url_no_password :=
  ⟨rfl, rfl, rfl⟩

/-- C7 (amended): RedisRateLimiter::new builds the client URL as follows:
when a password is configured, both the password and the database override
are written into the parsed URL; when no password is configured the original
URL is used unchanged, so the database override is not applied. -/
theorem build_connection_url_spec (redis_url : RedisUrl) (options : RedisConnectionOptions) :
    (∀ pwd, options.password = some pwd →
      build_connection_url redis_url options =
        { redis_url with password := some pwd, db := options.database }) ∧
    (options.password = none → build_connection_url redis_url options = redis_url) := by
  constructor
  · intro pwd hp; simp [build_connection_url, hp]
  · intro hp; simp [build_connection_url, hp]

/-- C7 witness: with a password configured, the password and the database
override are both applied to the URL. -/
theorem build_connection_url_spec_witness :
    options_with_password.password = some "secret" ∧
    build_connection_url url_no_password options_with_password =
      { url_no_password with password := some "secret", db := options_with_password.database } :=
  ⟨rfl, (build_connection_url_spec url_no_password options_with_password).1 "secret" rfl⟩

/-- C8 counterexample: with burst 0, a single leaky bucket call from a fresh
store stores level 1, which exceeds burst: the initialization path writes
level 1 regardless of the bucket size. -/
theorem leaky_bucket_level_exceeds_zero_burst :
    (run_leaky_bucket leaky_zero_burst_config "1.2.3.4" [0] fresh_store).1.leaky_buckets "ratelimit:leaky:1.2.3.4"
        = some { level := 1, last_leak := 0 } ∧
    ¬ (({ level := 1, last_leak := 0 } : LeakyBucketEntry).level ≤ ((leaky_zero_burst_config.burst : Nat) : ℚ)) := by
  constructor
  · rfl
  · norm_num [leaky_zero_burst_config]

/-- C8 (amended): provided burst is at least 1, for every identity, every
rate and every sequence of timestamps, every leaky bucket entry of the store
reached from a fresh store by leaky_bucket script executions has a level
between 0 and burst. -/
theorem leaky_bucket_level_bounds (config : RateLimitConfig) (key : String)
    (hb : 1 ≤ config.burst) (times : List ℚ) :
    leaky_level_inv config.burst (run_leaky_bucket config key times fresh_store).1 := by
  apply run_leaky_preserves_inv config key hb times fresh_store
  intro s entry hse
  simp [fresh_store] at hse

/-- C8 witness: with burst 2, one call at timestamp 0 stores the entry of
level 1, whose level lies between 0 and burst. -/
theorem leaky_bucket_level_bounds_witness :
    1 ≤ leaky_scenario_config.burst ∧
    (0 ≤ ({ level := 1, last_leak := 0 } : LeakyBucketEntry).level ∧
      ({ level := 1, last_leak := 0 } : LeakyBucketEntry).level ≤ (leaky_scenario_config.burst : ℚ)) :=
  ⟨by decide, leaky_bucket_level_bounds leaky_scenario_config "1.2.3.4" (by decide) [0]
      "ratelimit:leaky:1.2.3.4" { level := 1, last_leak := 0 } rfl⟩

/-- C9: for every configuration file, if the location override is field-wise
equal to the default settings of the file, resolving that location returns
settings equal to the default, every redis connection option included. -/
theorem get_settings_self_override_idempotent (cf : ConfigFile) (location : String)
    (h : cf.locations location = some cf.default) :
    cf.get_settings location = cf.default := by
  unfold ConfigFile.get_settings
  rw [h]
  simp [merge_redis_options_self]

/-- C9 witness: a configuration file whose location override equals its
default resolves that location to the default settings. -/
theorem get_settings_self_override_idempotent_witness :
    config_file_self_override.locations "/api" = some config_file_self_override.default ∧
    config_file_self_override.get_settings "/api" = config_file_self_override.default :=
  ⟨rfl, get_settings_self_override_idempotent config_file_self_override "/api" rfl⟩

/-- C10: for whatever lowercasing function the standard library provides,
from_str inverts the canonical display form of every algorithm variant
(using only that lowercasing fixes the four already-lowercase canonical
names, which holds of str::to_lowercase), it returns an error exactly when
the lowercased input is none of fixed_window, sliding_window, token_bucket,
leaky_bucket, and its decision depends only on the lowercase form of the
input, which makes it case-insensitive. -/
theorem from_str_round_trip (to_lowercase : String → String) :
    (∀ a : RateLimitAlgorithm, to_lowercase a.toStr = a.toStr →
      RateLimitAlgorithm.from_str_with to_lowercase a.toStr = Except.ok a) ∧
    (∀ s : String, (∃ e, RateLimitAlgorithm.from_str_with to_lowercase s = Except.error e) ↔
      (to_lowercase s ≠ "fixed_window" ∧ to_lowercase s ≠ "sliding_window" ∧
       to_lowercase s ≠ "token_bucket" ∧ to_lowercase s ≠ "leaky_bucket")) ∧
    (∀ s1 s2 : String, to_lowercase s1 = to_lowercase s2 →
      (RateLimitAlgorithm.from_str_with to_lowercase s1).toOption =
        (RateLimitAlgorithm.from_str_with to_lowercase s2).toOption) := by
  refine ⟨?_, ?_, ?_⟩
  · intro a ha
    cases a <;> simp [RateLimitAlgorithm.from_str_with, RateLimitAlgorithm.toStr] at ha ⊢ <;>
      simp [ha]
  · intro s
    simp only [RateLimitAlgorithm.from_str_with]
    split_ifs with h1 h2 h3 h4 <;> simp_all
  · intro s1 s2 h
    simp only [RateLimitAlgorithm.from_str_with, h]
    split_ifs <;> simp [Except.toOption]

/-- C10 witness: with the ASCII lowercasing instance, the canonical name
token_bucket is fixed by lowercasing and round trips to Ok TokenBucket, and
Token_Bucket lowercases like token_bucket and yields the same decision. -/
theorem from_str_round_trip_witness :
    (ascii_to_lower (RateLimitAlgorithm.toStr RateLimitAlgorithm.TokenBucket)
        = RateLimitAlgorithm.toStr RateLimitAlgorithm.TokenBucket ∧
      RateLimitAlgorithm.from_str_with ascii_to_lower (RateLimitAlgorithm.toStr RateLimitAlgorithm.TokenBucket)
        = Except.ok RateLimitAlgorithm.TokenBucket) ∧
    (ascii_to_lower "Token_Bucket" = ascii_to_lower "token_bucket" ∧
      (RateLimitAlgorithm.from_str_with ascii_to_lower "Token_Bucket").toOption
        = (RateLimitAlgorithm.from_str_with ascii_to_lower "token_bucket").toOption) :=
  ⟨⟨rfl, (from_str_round_trip ascii_to_lower).1 RateLimitAlgorithm.TokenBucket rfl⟩,
   ⟨rfl, (from_str_round_trip ascii_to_lower).2.2 "Token_Bucket" "token_bucket" rfl⟩⟩

end NgxRatelimitRedis
